import Mathlib

/-!
Shallow embedding of the core of the BankingSystem repository
(backend/app): the fraud-detection risk scorer
(`services/fraud_detection.py`), the rate limiter
(`core/rate_limiter.py`), the account balance ledger
(`services/account.py`) and the transaction orchestrator
(`services/transaction_service.py`, `api/v1/endpoints/transactions.py`).

Monetary amounts (Python `Decimal`) and rate-limiter timestamps (Python
`float` seconds) are modelled as rationals (`Rat`); datetimes are
modelled as integer seconds, so `timedelta(days=30)` becomes
`30*86400`.  Database queries become filters over explicit list
snapshots of the relevant tables.  The floating-point square root used
by the sample standard deviation (`** 0.5`) is kept abstract as a
function parameter `sqrtFn`; the results proved below hold for every
such function.
-/

namespace Banking

/-- `TransactionType` from `models/transaction.py`. -/
inductive TransactionType where
  | deposit
  | withdrawal
  | transfer
  | payment
  | fee
  | interest
  | investment
  | crypto
deriving DecidableEq, Repr

/-- `TransactionStatus` from `models/transaction.py`. -/
inductive TransactionStatus where
  | pending
  | completed
  | failed
  | cancelled
  | reversed
  | flagged
deriving DecidableEq, Repr

/-- `AccountStatus` from `models/account.py`. -/
inductive AccountStatus where
  | active
  | inactive
  | frozen
  | closed
deriving DecidableEq, Repr

/-- A row of the `transactions` table (the fields used by the core). -/
structure Txn where
  reference_id : String
  user_id : Nat
  account_id : Nat
  type : TransactionType
  status : TransactionStatus
  amount : Rat
  currency : String
  recipient_account : Option String
  created_at : Int
  processed_at : Option Int
deriving DecidableEq, Repr

/-- A row of the `accounts` table (the fields used by the core). -/
structure Account where
  id : Nat
  account_number : String
  user_id : Nat
  status : AccountStatus
  balance : Rat
  currency : String
  daily_transfer_limit : Rat
  withdrawal_limit : Rat
deriving DecidableEq, Repr

/-- A row of the `auth_devices` table (fields used by `_analyze_device`). -/
structure AuthDevice where
  user_id : Nat
  device_id : String
  fingerprint : Option String
  last_used : Int
deriving DecidableEq, Repr

/-- The `device_info` dict assembled by the transactions endpoint;
`.get` on a missing key yields `none`. -/
structure DeviceInfo where
  device_id : Option String
  fingerprint : Option String
deriving DecidableEq, Repr

/-- The typed failures of the error taxonomy (each corresponds to one
`raise` site in the source), plus `attributeError` for the unhandled
Python `AttributeError` (surfaced as HTTP 500) that a read of a
nonexistent attribute raises. -/
inductive BankError where
  | accountNotFound
  | accountNotActive
  | insufficientFunds
  | limitExceeded
  | recipientNotFound
  | recipientNotActive
  | fraudSuspected
  | invalidState
  | transactionNotFound
  | attributeError
deriving DecidableEq, Repr

/-- `max` of a Python generator over a nonempty list (the `[]` case is
unreachable at the call site in `_analyze_amount`). -/
def maxOfList (l : List Rat) : Rat :=
  match l with
  | [] => 0
  | a :: r => r.foldl max a

/-- `Decimal % 100 == 0` for an amount: the amount is an integer
multiple of 100, i.e. `amount / 100` has denominator 1. -/
def multipleOf100 (a : Rat) : Bool :=
  (a / 100).den == 1

/-- `FraudDetectionService._analyze_amount`.  `sqrtFn` stands for the
floating-point `** 0.5` used on the (nonnegative) sample variance. -/
def analyze_amount (sqrtFn : Rat → Rat) (amount : Rat) (history : List Txn) : Rat :=
  if history.isEmpty then 1/2
  else
    let amounts := history.map (·.amount)
    let avg_amount := amounts.sum / (history.length : Rat)
    let max_amount := maxOfList amounts
    let z_score : Rat :=
      if history.length > 1 then
        let std_dev := sqrtFn ((amounts.map (fun a => (a - avg_amount) ^ 2)).sum / ((history.length : Rat) - 1))
        if std_dev > 0 then (amount - avg_amount) / std_dev else 0
      else 0
    if amount > max_amount then min 1 ((amount / max_amount) * (4/5))
    else if z_score > 2 then min 1 (z_score * (1/5))
    else 0

/-- `FraudDetectionService._analyze_frequency`: the two `count` queries
become filters of the transactions table by user and time window. -/
def analyze_frequency (db : List Txn) (user_id : Nat) (now : Int) : Rat :=
  let recent_count : Nat :=
    (db.filter (fun t => t.user_id == user_id && decide (t.created_at ≥ now - 3600))).length
  let typical_count : Rat :=
    ((db.filter (fun t => t.user_id == user_id && decide (t.created_at ≥ now - 7 * 86400))).length : Rat) / (24 * 7)
  if typical_count = 0 then
    if recent_count > 3 then 1/2 else 0
  else
    min 1 (((recent_count : Rat) / typical_count) * (1/5))

/-- `FraudDetectionService._analyze_device`: the `AuthDevice` query
becomes a `find?` over the device registry snapshot. -/
def analyze_device (devices : List AuthDevice) (user_id : Nat) (device_info : DeviceInfo) (now : Int) : Rat :=
  match devices.find? (fun d => d.user_id == user_id && some d.device_id == device_info.device_id) with
  | none => 4/5
  | some known_device =>
    if known_device.fingerprint ≠ device_info.fingerprint then 9/10
    else if now - known_device.last_used > 30 * 86400 then 2/5
    else 0

/-- `FraudDetectionService._analyze_patterns`.  Note that
`total_transactions` is `len(history) if history else 1`, so an empty
history yields a type share of `0/1`. -/
def analyze_patterns (amount : Rat) (transaction_type : TransactionType) (history : List Txn) (now : Int) : Rat :=
  let recent_similar :=
    history.filter (fun t => t.type == transaction_type && decide (t.created_at ≥ now - 300))
  let s1 : Rat := if recent_similar.length > 2 then 3/10 else 0
  let total_transactions : Rat := if history.isEmpty then 1 else (history.length : Rat)
  let typeShare : Rat :=
    ((history.filter (fun t => t.type == transaction_type)).length : Rat) / total_transactions
  let s2 : Rat := s1 + (if typeShare < 1/10 then 1/5 else 0)
  let s3 : Rat := s2 + (if multipleOf100 amount && decide (amount > 1000) then 1/10 else 0)
  min s3 1

/-- `FraudDetectionService.analyze_transaction`: the 30-day history
query becomes a filter of the transactions snapshot, and the four
weighted factors are summed and capped at 1. -/
def analyze_transaction (db : List Txn) (devices : List AuthDevice) (now : Int)
    (user_id : Nat) (amount : Rat) (transaction_type : TransactionType)
    (device_info : DeviceInfo) (sqrtFn : Rat → Rat) : Rat :=
  let recent_transactions :=
    db.filter (fun t => t.user_id == user_id && decide (t.created_at ≥ now - 30 * 86400))
  let risk_score :=
    analyze_amount sqrtFn amount recent_transactions * (3/10)
      + analyze_frequency db user_id now * (1/5)
      + analyze_device devices user_id device_info now * (1/4)
      + analyze_patterns amount transaction_type recent_transactions now * (1/4)
  min risk_score 1

/-! ## Rate limiter (`core/rate_limiter.py`) -/

/-- Outcome of `RateLimiter.check_rate_limit` for one request: admitted,
rejected with HTTP 429 "Rate limit exceeded" (carrying `retry_after`),
or rejected with HTTP 429 carrying `blocked_until` (the `Blocked`
error of the taxonomy, raised both on promotion and while blocked). -/
inductive RLResult where
  | allowed
  | rateLimited (retry_after : Rat)
  | blocked (blocked_until : Rat)
deriving DecidableEq, Repr

/-- The per-client entry of the limiter: `self.requests[client_ip]`
and the optional `self.blocked_ips[client_ip]` block timestamp. -/
structure ClientState where
  requests : List Rat
  blockedAt : Option Rat
deriving DecidableEq, Repr

/-- The route classes of `self.limits`. -/
inductive RouteClass where
  | auth
  | transactions
  | highValue
  | defaultRoute
deriving DecidableEq, Repr

/-- `self.limits`: (max_requests, window seconds) per route class. -/
def routeLimits : RouteClass → Nat × Rat
  | .auth => (5, 60)
  | .transactions => (20, 60)
  | .highValue => (5, 300)
  | .defaultRoute => (100, 60)

/-- The purge `[r for r in requests if current_time - r < window]`. -/
def purgeWindow (requests : List Rat) (t window : Rat) : List Rat :=
  requests.filter (fun r => decide (t - r < window))

/-- Body of `check_rate_limit` after the blocked-IP gate: at this point
the client has no `blocked_ips` entry. -/
def check_rate_limit_body (s : ClientState) (t : Rat) (max_requests : Nat) (window : Rat) :
    ClientState × RLResult :=
  let purged := purgeWindow s.requests t window
  if purged.length ≥ max_requests then
    if purged.length ≥ max_requests * 2 then
      ({ requests := purged, blockedAt := some t }, .blocked (t + 3600))
    else
      ({ requests := purged, blockedAt := none }, .rateLimited (window - (t - purged.headI)))
  else
    ({ requests := purged ++ [t], blockedAt := none }, .allowed)

/-- `RateLimiter.check_rate_limit` for one client at time `t` with the
route's `(max_requests, window)`.  `dev = true` models
`settings.ENVIRONMENT == "development"`, where the limiter is bypassed. -/
def check_rate_limit (dev : Bool) (s : ClientState) (t : Rat) (max_requests : Nat) (window : Rat) :
    ClientState × RLResult :=
  if dev then (s, .allowed)
  else
    match s.blockedAt with
    | some block_time =>
      if t - block_time < 3600 then (s, .blocked (block_time + 3600))
      else check_rate_limit_body { s with blockedAt := none } t max_requests window
    | none => check_rate_limit_body s t max_requests window

/-- A client issuing all of its requests at the given times against a
single route class, starting from the empty (fresh-`defaultdict`)
state, in production mode. -/
def run_requests (times : List Rat) (rc : RouteClass) : ClientState :=
  times.foldl
    (fun s t => (check_rate_limit false s t (routeLimits rc).1 (routeLimits rc).2).1)
    { requests := [], blockedAt := none }

/-! ## Balance ledger (`services/account.py`) -/

/-- `AccountService.update_balance` on the looked-up account row: the
`ValueError("Insufficient funds")` is raised before any mutation, so on
failure the account is returned unchanged alongside the error. -/
def update_balance (account : Account) (amount : Rat) (operation : String) :
    Account × Option BankError :=
  if operation = "credit" then
    ({ account with balance := account.balance + amount }, none)
  else if operation = "debit" then
    if account.balance < amount then (account, some .insufficientFunds)
    else ({ account with balance := account.balance - amount }, none)
  else (account, none)

/-! ## Transaction orchestrator (`services/transaction_service.py`) -/

/-- The fields of the `TransactionCreate` request schema used by the
orchestrator. -/
structure TransactionCreateReq where
  account_id : Nat
  amount : Rat
  type : TransactionType
  recipient_account : Option String
deriving DecidableEq, Repr

/-- The persisted world the services act on: the `accounts` and
`transactions` tables. -/
structure World where
  accounts : List Account
  transactions : List Txn
deriving DecidableEq, Repr

/-- `account.balance += delta` on the session object with the given
row id (the identity map makes every lookup of that id alias the same
object, so sequential adjustments compose on the current value). -/
def adjust_balance (accounts : List Account) (id : Nat) (delta : Rat) : List Account :=
  accounts.map (fun a => if a.id == id then { a with balance := a.balance + delta } else a)

/-- `TransactionService._validate_transaction_limits`: note the
same-day transfer query filters only by account, type and date — not by
status. -/
def validate_transaction_limits (db : List Txn) (account : Account) (txn : Txn)
    (dayStart : Int) : Except BankError Unit :=
  if txn.type = .withdrawal ∧ txn.amount > account.withdrawal_limit then
    .error .limitExceeded
  else if txn.type = .transfer then
    let today_transfers :=
      db.filter (fun t =>
        t.account_id == account.id && t.type == TransactionType.transfer
          && decide (t.created_at ≥ dayStart))
    let total_transfers := (today_transfers.map (·.amount)).sum
    if total_transfers + txn.amount > account.daily_transfer_limit then
      .error .limitExceeded
    else .ok ()
  else .ok ()

/-- `TransactionService._process_withdrawal`. -/
def process_withdrawal (accounts : List Account) (txn : Txn) (account : Account) (now : Int) :
    Except BankError (List Account × Txn) :=
  if account.balance < txn.amount then .error .insufficientFunds
  else
    .ok (adjust_balance accounts account.id (-txn.amount),
      { txn with status := .completed, processed_at := some now })

/-- `TransactionService._process_deposit`. -/
def process_deposit (accounts : List Account) (txn : Txn) (account : Account) (now : Int) :
    Except BankError (List Account × Txn) :=
  .ok (adjust_balance accounts account.id txn.amount,
    { txn with status := .completed, processed_at := some now })

/-- `TransactionService._process_transfer`: funds check, recipient
lookup by account number, recipient status check, then debit and
credit; any raise happens before either mutation. -/
def process_transfer (accounts : List Account) (txn : Txn) (account : Account) (now : Int) :
    Except BankError (List Account × Txn) :=
  if account.balance < txn.amount then .error .insufficientFunds
  else
    match accounts.find? (fun a => some a.account_number == txn.recipient_account) with
    | none => .error .recipientNotFound
    | some recipient_account =>
      if recipient_account.status ≠ .active then .error .recipientNotActive
      else
        let accounts1 := adjust_balance accounts account.id (-txn.amount)
        let accounts2 := adjust_balance accounts1 recipient_account.id txn.amount
        .ok (accounts2, { txn with status := .completed, processed_at := some now })

/-- `TransactionService.create_transaction`: account lookup and status
check, record built in the Pending column-default state, limit
validation, type dispatch (only withdrawal / deposit / transfer have a
settlement branch), then `db.add` + `commit`.  An exception anywhere
aborts before the commit, so the caller's world is unchanged on error. -/
def create_transaction (w : World) (req : TransactionCreateReq) (user_id : Nat)
    (ref : String) (now : Int) (dayStart : Int) : Except BankError (World × Txn) :=
  match w.accounts.find? (fun a => a.id == req.account_id && a.user_id == user_id) with
  | none => .error .accountNotFound
  | some account =>
    if account.status ≠ .active then .error .accountNotActive
    else
      let txn : Txn :=
        { reference_id := ref, user_id := user_id, account_id := req.account_id,
          type := req.type, status := .pending, amount := req.amount,
          currency := account.currency, recipient_account := req.recipient_account,
          created_at := now, processed_at := none }
      match validate_transaction_limits w.transactions account txn dayStart with
      | .error e => .error e
      | .ok _ =>
        let settled : Except BankError (List Account × Txn) :=
          if txn.type = .withdrawal then process_withdrawal w.accounts txn account now
          else if txn.type = .deposit then process_deposit w.accounts txn account now
          else if txn.type = .transfer then process_transfer w.accounts txn account now
          else .ok (w.accounts, txn)
        match settled with
        | .error e => .error e
        | .ok (accounts', txn') =>
          .ok ({ accounts := accounts', transactions := w.transactions ++ [txn'] }, txn')

/-- `create_transaction` as a state transition: a raised exception
propagates before `db.commit`, so the world is retained as it was. -/
def create_transaction_run (w : World) (req : TransactionCreateReq) (user_id : Nat)
    (ref : String) (now : Int) (dayStart : Int) : World × Except BankError Txn :=
  match create_transaction w req user_id ref now dayStart with
  | .error e => (w, .error e)
  | .ok (w', t) => (w', .ok t)

/-- The attribute read `transaction_in.transaction_type` in the
`POST /transactions/` endpoint: the `TransactionCreate` schema declares
the field `type` and no `transaction_type` alias
(`schemas/transaction.py`), so this attribute lookup finds nothing. -/
def transaction_in_transaction_type : TransactionCreateReq → Option TransactionType :=
  fun _ => none

/-- The `POST /transactions/` endpoint
(`api/v1/endpoints/transactions.py`): it evaluates
`transaction_in.transaction_type` as an argument to the fraud scorer;
because that attribute is absent, evaluation raises `AttributeError`
before the score is computed, so neither the 0.8-threshold fraud check
nor the orchestrator's creation path is ever reached.  The two further
branches embed what the code would do if the attribute read
succeeded. -/
def endpoint_create_transaction (w : World) (devices : List AuthDevice)
    (req : TransactionCreateReq) (user_id : Nat) (device_info : DeviceInfo)
    (sqrtFn : Rat → Rat) (ref : String) (now : Int) (dayStart : Int) :
    World × Except BankError Txn :=
  match transaction_in_transaction_type req with
  | none => (w, .error .attributeError)
  | some transaction_type =>
    let fraud_score :=
      analyze_transaction w.transactions devices now user_id req.amount transaction_type
        device_info sqrtFn
    if fraud_score > 4/5 then (w, .error .fraudSuspected)
    else create_transaction_run w req user_id ref now dayStart

/-- `TransactionService.cancel_transaction`: lookup by reference id and
user, `InvalidState` unless Pending, else the record (unique by
reference id) moves to Cancelled; no account row is touched. -/
def cancel_transaction (w : World) (ref : String) (user_id : Nat) :
    World × Except BankError Txn :=
  match w.transactions.find? (fun t => t.reference_id == ref && t.user_id == user_id) with
  | none => (w, .error .transactionNotFound)
  | some t =>
    if t.status ≠ .pending then (w, .error .invalidState)
    else
      let t' := { t with status := TransactionStatus.cancelled }
      ({ accounts := w.accounts,
         transactions := w.transactions.map (fun x => if x.reference_id == t.reference_id then t' else x) },
       .ok t')

/-! ## Concrete instances used by counterexamples and witnesses -/

/-- Concrete account used to witness `C5_debit_safety`. -/
def acctC5 : Account :=
  { id := 1, account_number := "A1", user_id := 1, status := .active,
    balance := 5, currency := "USD", daily_transfer_limit := 10000, withdrawal_limit := 5000 }

/-- Concrete pending transaction used to witness `C8_cancel_only_pending`. -/
def txnC8pending : Txn :=
  { reference_id := "p1", user_id := 1, account_id := 1, type := .deposit,
    status := .pending, amount := 10, currency := "USD", recipient_account := none,
    created_at := 0, processed_at := none }

/-- Concrete completed transaction used to witness `C8_cancel_only_pending`. -/
def txnC8completed : Txn :=
  { reference_id := "c1", user_id := 1, account_id := 1, type := .deposit,
    status := .completed, amount := 10, currency := "USD", recipient_account := none,
    created_at := 0, processed_at := some 1 }

/-- Concrete world used to witness `C8_cancel_only_pending`: one
pending and one completed transaction. -/
def worldC8 : World :=
  { accounts := [], transactions := [txnC8pending, txnC8completed] }

/-- Three recent same-type transactions of user 1, used in
`C6_fraud_gate_dead_attribute_error`: they push the amount, frequency
and pattern factors up. -/
def txnsC6 : List Txn :=
  [ { reference_id := "t1", user_id := 1, account_id := 1, type := .payment, status := .completed,
      amount := 1, currency := "USD", recipient_account := none, created_at := 2591990, processed_at := none },
    { reference_id := "t2", user_id := 1, account_id := 1, type := .payment, status := .completed,
      amount := 1, currency := "USD", recipient_account := none, created_at := 2591991, processed_at := none },
    { reference_id := "t3", user_id := 1, account_id := 1, type := .payment, status := .completed,
      amount := 1, currency := "USD", recipient_account := none, created_at := 2591992, processed_at := none } ]

/-- Device registry used in `C6_fraud_gate_dead_attribute_error`: the
device is known but its fingerprint will not match. -/
def devsC6 : List AuthDevice :=
  [ { user_id := 1, device_id := "dev1", fingerprint := some "fpA", last_used := 2592000 } ]

/-- World used in `C6_fraud_gate_dead_attribute_error`. -/
def worldC6 : World :=
  { accounts :=
      [ { id := 1, account_number := "A1", user_id := 1, status := .active,
          balance := 100000, currency := "USD", daily_transfer_limit := 100000,
          withdrawal_limit := 100000 } ],
    transactions := txnsC6 }

/-- Request used in `C6_fraud_gate_dead_attribute_error`. -/
def reqC6 : TransactionCreateReq :=
  { account_id := 1, amount := 10000, type := .payment, recipient_account := none }

/-- The spec's notion of an invalid transfer recipient: no account in
the table carries the referenced account number with Active status. -/
def recipient_invalid (accounts : List Account) (r : Option String) : Prop :=
  ∀ a ∈ accounts, some a.account_number = r → a.status ≠ .active

/-- Source account used to witness `C7_transfer_all_or_nothing`. -/
def acctC7 : Account :=
  { id := 1, account_number := "A1", user_id := 1, status := .active,
    balance := 100, currency := "USD", daily_transfer_limit := 10000,
    withdrawal_limit := 5000 }

/-- World used to witness `C7_transfer_all_or_nothing`: one active,
funded source account and no account numbered "NOPE". -/
def worldC7 : World :=
  { accounts := [acctC7], transactions := [] }

/-- Transfer request to the nonexistent account number "NOPE". -/
def reqC7 : TransactionCreateReq :=
  { account_id := 1, amount := 10, type := .transfer, recipient_account := some "NOPE" }

/-- Candidate transfer row used against `_process_transfer` directly. -/
def txnC7 : Txn :=
  { reference_id := "r1", user_id := 1, account_id := 1, type := .transfer,
    status := .pending, amount := 10, currency := "USD", recipient_account := some "NOPE",
    created_at := 0, processed_at := none }

/-- A client state with 20 in-window timestamps on a transactions-class
route, witnessing the RateLimited branch of
`C2_rate_limit_reject_and_block`. -/
def stateC2at : ClientState :=
  { requests := [1, 2, 3, 4, 5, 6, 7, 8, 9, 10, 11, 12, 13, 14, 15, 16, 17, 18, 19, 20],
    blockedAt := none }

/-- A client state with 40 in-window timestamps, witnessing the Blocked
branch of `C2_rate_limit_reject_and_block`. -/
def stateC2b : ClientState :=
  { requests := [1, 2, 3, 4, 5, 6, 7, 8, 9, 10, 11, 12, 13, 14, 15, 16, 17, 18, 19, 20,
      21, 22, 23, 24, 25, 26, 27, 28, 29, 30, 21, 22, 23, 24, 25, 26, 27, 28, 29, 30],
    blockedAt := none }

/-- A full five-timestamp window, witnessing
`C10_rejected_not_recorded_and_bounded`. -/
def stateC10 : ClientState :=
  { requests := [1, 2, 3, 4, 5], blockedAt := none }

/-- The spec's own notion of the daily-transfer usage: the sum of the
amounts of same-day transfers on the account that actually Completed. -/
def spec_completed_same_day_transfer_total (db : List Txn) (account : Account)
    (dayStart : Int) : Rat :=
  ((db.filter (fun t =>
      t.account_id == account.id && t.type == TransactionType.transfer
        && t.status == TransactionStatus.completed
        && decide (t.created_at ≥ dayStart))).map (·.amount)).sum

/-- Account used in the C3 counterexample. -/
def acctC3 : Account :=
  { id := 1, account_number := "A1", user_id := 1, status := .active,
    balance := 100, currency := "USD", daily_transfer_limit := 10000,
    withdrawal_limit := 5000 }

/-- A same-day transfer that FAILED, used in the C3 counterexample. -/
def failedTransferC3 : Txn :=
  { reference_id := "f1", user_id := 1, account_id := 1, type := .transfer,
    status := .failed, amount := 10000, currency := "USD",
    recipient_account := some "B1", created_at := 100, processed_at := none }

/-- Candidate transfer of amount 1, used in the C3 counterexample. -/
def candC3 : Txn :=
  { reference_id := "c1", user_id := 1, account_id := 1, type := .transfer,
    status := .pending, amount := 1, currency := "USD",
    recipient_account := some "B1", created_at := 200, processed_at := none }

/-- Account used in the C4 counterexample. -/
def acctC4 : Account :=
  { id := 1, account_number := "A1", user_id := 1, status := .active,
    balance := 100, currency := "USD", daily_transfer_limit := 10000,
    withdrawal_limit := 5000 }

/-- World used in the C4 counterexample. -/
def worldC4 : World :=
  { accounts := [acctC4], transactions := [] }

/-- Payment request of amount 50, used in the C4 counterexample. -/
def reqC4 : TransactionCreateReq :=
  { account_id := 1, amount := 50, type := .payment, recipient_account := none }

/-- Withdrawal request used to witness `C4_amended_settlement_by_type`. -/
def reqC4w : TransactionCreateReq :=
  { account_id := 1, amount := 50, type := .withdrawal, recipient_account := none }

/-- The settled transaction row produced in the C4 witness run. -/
def txnC4w : Txn :=
  { reference_id := "r2", user_id := 1, account_id := 1,
    type := .withdrawal, status := .completed, amount := 50,
    currency := "USD", recipient_account := none,
    created_at := 7, processed_at := some 7 }

/-! ## Claims -/

/-- C5: a debit for more than the balance fails with InsufficientFunds
and leaves the balance unchanged; a debit for at most the balance
succeeds with the balance reduced by the amount, which is never
negative. -/
theorem C5_debit_safety :
    ∀ (a : Account) (amt : Rat), 0 < amt →
      (amt > a.balance → update_balance a amt "debit" = (a, some .insufficientFunds)) ∧
      (amt ≤ a.balance →
        update_balance a amt "debit" = ({ a with balance := a.balance - amt }, none) ∧
        0 ≤ a.balance - amt) := by
  intro a amt _hpos
  have hdc : ("debit" : String) ≠ "credit" := by decide
  constructor
  · intro hgt
    simp [update_balance, hdc, hgt]
  · intro hle
    exact ⟨by simp [update_balance, hdc, not_lt.mpr hle], sub_nonneg.mpr hle⟩

theorem C5_debit_safety_witness :
    0 < (6 : Rat) ∧ (6 : Rat) > acctC5.balance ∧
      update_balance acctC5 6 "debit" = (acctC5, some .insufficientFunds) :=
  ⟨by decide, by decide, (C5_debit_safety acctC5 6 (by decide)).1 (by decide)⟩

/-- C6: the claim's fraud gate is dead code in the program.  The
endpoint reads the absent attribute `transaction_in.transaction_type`,
so every request fails with AttributeError before the risk score is
compared and before any ledger mutation, whatever the score would have
been — in particular the request of `worldC6`, whose score 0.825
exceeds the 0.8 threshold, is not rejected as fraudulent. -/
theorem C6_fraud_gate_dead_attribute_error :
    (∀ (w : World) (devices : List AuthDevice) (req : TransactionCreateReq) (uid : Nat)
      (di : DeviceInfo) (sqrtFn : Rat → Rat) (ref : String) (now dayStart : Int),
      endpoint_create_transaction w devices req uid di sqrtFn ref now dayStart
        = (w, .error .attributeError)) ∧
    (analyze_transaction worldC6.transactions devsC6 2592000 1 reqC6.amount reqC6.type
        ⟨some "dev1", some "fpB"⟩ (fun _ => 0) > 4/5 ∧
      endpoint_create_transaction worldC6 devsC6 reqC6 1 ⟨some "dev1", some "fpB"⟩
        (fun _ => 0) "r1" 2592000 0
        = (worldC6, .error .attributeError)) := by
  refine ⟨fun w devices req uid di sqrtFn ref now dayStart => rfl, ?_, rfl⟩
  have hfp : ("fpA" : String) ≠ "fpB" := by decide
  have hscore : analyze_transaction worldC6.transactions devsC6 2592000 1 reqC6.amount reqC6.type
      ⟨some "dev1", some "fpB"⟩ (fun _ => 0) = 33/40 := by
    norm_num [analyze_transaction, analyze_amount, analyze_frequency, analyze_device,
      analyze_patterns, maxOfList, multipleOf100, worldC6, txnsC6, devsC6, reqC6,
      List.filter, List.find?, hfp, min_def]
  rw [hscore]
  norm_num

/-- C8: cancellation succeeds exactly on Pending transactions, moving
them to Cancelled without touching any account; otherwise it fails with
InvalidState and changes nothing. -/
theorem C8_cancel_only_pending :
    ∀ (w : World) (ref : String) (uid : Nat) (t : Txn),
      w.transactions.find? (fun x => x.reference_id == ref && x.user_id == uid) = some t →
      ((t.status = .pending →
          (cancel_transaction w ref uid).2 = .ok { t with status := TransactionStatus.cancelled } ∧
          (cancel_transaction w ref uid).1.accounts = w.accounts) ∧
       (t.status ≠ .pending →
          cancel_transaction w ref uid = (w, .error .invalidState))) := by
  intro w ref uid t hfind
  constructor
  · intro hs
    simp [cancel_transaction, hfind, hs]
  · intro hs
    simp [cancel_transaction, hfind, hs]

theorem C8_cancel_only_pending_witness :
    (worldC8.transactions.find? (fun x => x.reference_id == "p1" && x.user_id == 1)
        = some txnC8pending ∧
      (cancel_transaction worldC8 "p1" 1).2
        = .ok { txnC8pending with status := TransactionStatus.cancelled } ∧
      (cancel_transaction worldC8 "p1" 1).1.accounts = worldC8.accounts) ∧
    (worldC8.transactions.find? (fun x => x.reference_id == "c1" && x.user_id == 1)
        = some txnC8completed ∧
      cancel_transaction worldC8 "c1" 1 = (worldC8, .error .invalidState)) :=
  ⟨⟨by decide,
    ((C8_cancel_only_pending worldC8 "p1" 1 txnC8pending (by decide)).1 (by decide)).1,
    ((C8_cancel_only_pending worldC8 "p1" 1 txnC8pending (by decide)).1 (by decide)).2⟩,
   ⟨by decide,
    (C8_cancel_only_pending worldC8 "c1" 1 txnC8completed (by decide)).2 (by decide)⟩⟩

/-- With an invalid recipient, `_process_transfer` always raises. -/
theorem process_transfer_error_of_invalid :
    ∀ (accounts : List Account) (txn : Txn) (account : Account) (now : Int),
      recipient_invalid accounts txn.recipient_account →
      ∃ e, process_transfer accounts txn account now = .error e := by
  intro accounts txn account now hinv
  unfold process_transfer
  split
  · exact ⟨_, rfl⟩
  · cases hfind : accounts.find? (fun a => some a.account_number == txn.recipient_account) with
    | none => simp [hfind]
    | some r =>
      have hp := List.find?_some hfind
      have hmem := List.mem_of_find?_eq_some hfind
      have heq : some r.account_number = txn.recipient_account := by simpa using hp
      have hst : r.status ≠ .active := hinv r hmem heq
      simp [hfind, hst]

/-- C7: a transfer whose recipient account is missing or not Active
fails, leaving the whole world (in particular the source balance)
unchanged; when the source has sufficient funds the failure is
precisely the recipient error. -/
theorem C7_transfer_all_or_nothing :
    (∀ (w : World) (req : TransactionCreateReq) (uid : Nat) (ref : String) (now dayStart : Int),
      req.type = .transfer →
      recipient_invalid w.accounts req.recipient_account →
      (create_transaction_run w req uid ref now dayStart).1 = w ∧
      ∃ e, (create_transaction_run w req uid ref now dayStart).2 = .error e) ∧
    (∀ (accounts : List Account) (txn : Txn) (account : Account) (now : Int),
      recipient_invalid accounts txn.recipient_account →
      txn.amount ≤ account.balance →
      process_transfer accounts txn account now = .error .recipientNotFound ∨
      process_transfer accounts txn account now = .error .recipientNotActive) := by
  constructor
  · intro w req uid ref now dayStart htype hinv
    suffices h : ∃ e, create_transaction w req uid ref now dayStart = .error e by
      obtain ⟨e, he⟩ := h
      unfold create_transaction_run
      rw [he]
      exact ⟨rfl, e, rfl⟩
    unfold create_transaction
    split
    · exact ⟨_, rfl⟩
    · rename_i account hfind
      split
      · exact ⟨_, rfl⟩
      · cases hval : validate_transaction_limits w.transactions account
            { reference_id := ref, user_id := uid, account_id := req.account_id,
              type := req.type, status := .pending, amount := req.amount,
              currency := account.currency, recipient_account := req.recipient_account,
              created_at := now, processed_at := none } dayStart with
        | error e => exact ⟨e, by simp [hval]⟩
        | ok u =>
          obtain ⟨e, he⟩ := process_transfer_error_of_invalid w.accounts
            { reference_id := ref, user_id := uid, account_id := req.account_id,
              type := req.type, status := .pending, amount := req.amount,
              currency := account.currency, recipient_account := req.recipient_account,
              created_at := now, processed_at := none } account now hinv
          rw [htype] at hval he
          exact ⟨e, by simp [htype, hval, he]⟩
  · intro accounts txn account now hinv hfunds
    unfold process_transfer
    rw [if_neg (not_lt.mpr hfunds)]
    cases hfind : accounts.find? (fun a => some a.account_number == txn.recipient_account) with
    | none => simp [hfind]
    | some r =>
      have hp := List.find?_some hfind
      have hmem := List.mem_of_find?_eq_some hfind
      have heq : some r.account_number = txn.recipient_account := by simpa using hp
      have hst : r.status ≠ .active := hinv r hmem heq
      simp [hfind, hst]

theorem C7_transfer_all_or_nothing_witness :
    (reqC7.type = .transfer ∧ recipient_invalid worldC7.accounts reqC7.recipient_account ∧
      (create_transaction_run worldC7 reqC7 1 "r1" 0 0).1 = worldC7 ∧
      ∃ e, (create_transaction_run worldC7 reqC7 1 "r1" 0 0).2 = .error e) ∧
    (txnC7.amount ≤ acctC7.balance ∧
      (process_transfer worldC7.accounts txnC7 acctC7 0
          = .error .recipientNotFound ∨
        process_transfer worldC7.accounts txnC7 acctC7 0
          = .error .recipientNotActive)) := by
  have hinv : recipient_invalid worldC7.accounts reqC7.recipient_account := by
    intro a ha heq
    simp [worldC7, acctC7] at ha
    subst ha
    simp [reqC7] at heq
  have hinv2 : recipient_invalid worldC7.accounts txnC7.recipient_account := hinv
  refine ⟨⟨rfl, hinv, C7_transfer_all_or_nothing.1 worldC7 reqC7 1 "r1" 0 0 rfl hinv⟩,
    ⟨by decide, C7_transfer_all_or_nothing.2 worldC7.accounts txnC7 acctC7 0 hinv2 (by decide)⟩⟩

/-- C2: with the client not currently blocked, a purged in-window count
at or above the route limit (but below twice it) is rejected with
RateLimited carrying retry-after = window − age of the oldest retained
timestamp; a count at or above twice the limit promotes the client to
Blocked at the current time, and while blocked every request — whatever
its window state or route class — is rejected for the next 3600
seconds. -/
theorem C2_rate_limit_reject_and_block :
    ∀ (rc : RouteClass) (s : ClientState) (t : Rat),
      s.blockedAt = none →
      (((purgeWindow s.requests t (routeLimits rc).2).length ≥ (routeLimits rc).1 →
        (purgeWindow s.requests t (routeLimits rc).2).length < (routeLimits rc).1 * 2 →
        check_rate_limit false s t (routeLimits rc).1 (routeLimits rc).2
          = ({ requests := purgeWindow s.requests t (routeLimits rc).2, blockedAt := none },
             .rateLimited ((routeLimits rc).2
               - (t - (purgeWindow s.requests t (routeLimits rc).2).headI)))) ∧
       ((purgeWindow s.requests t (routeLimits rc).2).length ≥ (routeLimits rc).1 * 2 →
        (check_rate_limit false s t (routeLimits rc).1 (routeLimits rc).2
          = ({ requests := purgeWindow s.requests t (routeLimits rc).2, blockedAt := some t },
             .blocked (t + 3600)) ∧
         ∀ (s' : ClientState) (t' : Rat) (L' : Nat) (W' : Rat),
           s'.blockedAt = some t → t' - t < 3600 →
           check_rate_limit false s' t' L' W' = (s', .blocked (t + 3600))))) := by
  intro rc s t hb
  constructor
  · intro hge hlt
    simp [check_rate_limit, hb, check_rate_limit_body, hge, Nat.not_le.mpr hlt]
  · intro hge2
    have hge : (purgeWindow s.requests t (routeLimits rc).2).length ≥ (routeLimits rc).1 := by
      omega
    refine ⟨by simp [check_rate_limit, hb, check_rate_limit_body, hge, hge2], ?_⟩
    intro s' t' L' W' hb' hlt'
    simp [check_rate_limit, hb', hlt']

theorem C2_rate_limit_reject_and_block_witness :
    (stateC2at.blockedAt = none ∧
      (purgeWindow stateC2at.requests 30 (routeLimits .transactions).2).length
        ≥ (routeLimits .transactions).1 ∧
      (purgeWindow stateC2at.requests 30 (routeLimits .transactions).2).length
        < (routeLimits .transactions).1 * 2 ∧
      check_rate_limit false stateC2at 30 (routeLimits .transactions).1 (routeLimits .transactions).2
        = ({ requests := purgeWindow stateC2at.requests 30 (routeLimits .transactions).2,
             blockedAt := none },
           .rateLimited ((routeLimits .transactions).2
             - (30 - (purgeWindow stateC2at.requests 30 (routeLimits .transactions).2).headI)))) ∧
    (stateC2b.blockedAt = none ∧
      (purgeWindow stateC2b.requests 30 (routeLimits .transactions).2).length
        ≥ (routeLimits .transactions).1 * 2 ∧
      check_rate_limit false stateC2b 30 (routeLimits .transactions).1 (routeLimits .transactions).2
        = ({ requests := purgeWindow stateC2b.requests 30 (routeLimits .transactions).2,
             blockedAt := some 30 },
           .blocked (30 + 3600)) ∧
      check_rate_limit false { requests := [], blockedAt := some 30 } 100
          (routeLimits .auth).1 (routeLimits .auth).2
        = ({ requests := [], blockedAt := some 30 }, .blocked (30 + 3600))) := by
  have ha1 : (purgeWindow stateC2at.requests 30 (routeLimits .transactions).2).length
      ≥ (routeLimits .transactions).1 := by
    norm_num [purgeWindow, stateC2at, routeLimits, List.filter]
  have ha2 : (purgeWindow stateC2at.requests 30 (routeLimits .transactions).2).length
      < (routeLimits .transactions).1 * 2 := by
    norm_num [purgeWindow, stateC2at, routeLimits, List.filter]
  have hb1 : (purgeWindow stateC2b.requests 30 (routeLimits .transactions).2).length
      ≥ (routeLimits .transactions).1 * 2 := by
    norm_num [purgeWindow, stateC2b, routeLimits, List.filter]
  have hlt : (100 : Rat) - 30 < 3600 := by norm_num
  exact ⟨⟨rfl, ha1, ha2,
    (C2_rate_limit_reject_and_block .transactions stateC2at 30 rfl).1 ha1 ha2⟩,
   ⟨rfl, hb1,
    ((C2_rate_limit_reject_and_block .transactions stateC2b 30 rfl).2 hb1).1,
    ((C2_rate_limit_reject_and_block .transactions stateC2b 30 rfl).2 hb1).2
      { requests := [], blockedAt := some 30 } 100 (routeLimits .auth).1 (routeLimits .auth).2
      rfl hlt⟩⟩

/-- After the blocked-IP gate, a rejected request keeps only the purged
timestamps and stays within any bound the pre-state satisfied. -/
theorem check_rate_limit_body_requests_sublist :
    ∀ (s : ClientState) (t : Rat) (L : Nat) (W : Rat),
      (check_rate_limit_body s t L W).2 ≠ .allowed →
      ((check_rate_limit_body s t L W).1).requests.Sublist s.requests := by
  intro s t L W h
  simp only [check_rate_limit_body] at h ⊢
  by_cases h1 : (purgeWindow s.requests t W).length ≥ L
  · by_cases h2 : (purgeWindow s.requests t W).length ≥ L * 2
    · rw [if_pos h1, if_pos h2]
      exact List.filter_sublist _
    · rw [if_pos h1, if_neg h2]
      exact List.filter_sublist _
  · rw [if_neg h1] at h
    exact absurd rfl h

/-- One step of the limiter never grows the recorded window beyond `L`
when it was within `L` before. -/
theorem check_rate_limit_requests_le :
    ∀ (dev : Bool) (s : ClientState) (t : Rat) (L : Nat) (W : Rat),
      s.requests.length ≤ L →
      ((check_rate_limit dev s t L W).1).requests.length ≤ L := by
  have hbody : ∀ (s : ClientState) (t : Rat) (L : Nat) (W : Rat),
      s.requests.length ≤ L →
      ((check_rate_limit_body s t L W).1).requests.length ≤ L := by
    intro s t L W h
    have hp : (purgeWindow s.requests t W).length ≤ s.requests.length :=
      List.length_filter_le _ _
    by_cases h1 : (purgeWindow s.requests t W).length ≥ L
    · by_cases h2 : (purgeWindow s.requests t W).length ≥ L * 2
      · simp [check_rate_limit_body, h1, h2]; omega
      · simp [check_rate_limit_body, h1, h2]; omega
    · simp [check_rate_limit_body, h1]; omega
  intro dev s t L W h
  unfold check_rate_limit
  split
  · exact h
  · cases hba : s.blockedAt with
    | none => exact hbody s t L W h
    | some b =>
      by_cases hlt : t - b < 3600
      · simpa [hlt] using h
      · simpa [hlt] using hbody { s with blockedAt := none } t L W h

/-- Length invariant along any same-route request trace from the fresh
state. -/
theorem run_requests_length_le_aux :
    ∀ (times : List Rat) (s : ClientState) (L : Nat) (W : Rat),
      s.requests.length ≤ L →
      ((times.foldl (fun s t => (check_rate_limit false s t L W).1) s).requests.length ≤ L) := by
  intro times
  induction times with
  | nil => intro s L W h; exact h
  | cons t ts ih =>
    intro s L W h
    exact ih _ _ _ (check_rate_limit_requests_le false s t L W h)

/-- C10: a rejected request never records its timestamp (the post-state
window is a sublist of the pre-state window), and a client that only
ever hits one route class never holds more recorded in-window
timestamps than that route's limit. -/
theorem C10_rejected_not_recorded_and_bounded :
    (∀ (dev : Bool) (s : ClientState) (t : Rat) (L : Nat) (W : Rat),
      (check_rate_limit dev s t L W).2 ≠ .allowed →
      ((check_rate_limit dev s t L W).1).requests.Sublist s.requests) ∧
    (∀ (times : List Rat) (rc : RouteClass),
      (run_requests times rc).requests.length ≤ (routeLimits rc).1) := by
  constructor
  · intro dev s t L W hne
    cases dev with
    | true => simp [check_rate_limit] at hne
    | false =>
      cases hba : s.blockedAt with
      | none =>
        have heq : check_rate_limit false s t L W = check_rate_limit_body s t L W := by
          simp [check_rate_limit, hba]
        rw [heq] at hne ⊢
        exact check_rate_limit_body_requests_sublist s t L W hne
      | some b =>
        by_cases hlt : t - b < 3600
        · have heq : check_rate_limit false s t L W = (s, .blocked (b + 3600)) := by
            simp [check_rate_limit, hba, hlt]
          rw [heq]
        · have heq : check_rate_limit false s t L W
              = check_rate_limit_body { s with blockedAt := none } t L W := by
            simp [check_rate_limit, hba, hlt]
          rw [heq] at hne ⊢
          exact check_rate_limit_body_requests_sublist { s with blockedAt := none } t L W hne
  · intro times rc
    exact run_requests_length_le_aux times _ _ _ (by simp)

theorem C10_rejected_not_recorded_and_bounded_witness :
    (check_rate_limit false stateC10 31 5 60).2 ≠ .allowed ∧
      ((check_rate_limit false stateC10 31 5 60).1).requests.Sublist stateC10.requests := by
  have hne : (check_rate_limit false stateC10 31 5 60).2 ≠ .allowed := by
    norm_num [check_rate_limit, check_rate_limit_body, purgeWindow, stateC10, List.filter]; decide
  exact ⟨hne, C10_rejected_not_recorded_and_bounded.1 false stateC10 31 5 60 hne⟩

/-- C3 counterexample: the validator raises LimitExceeded although the
sum of same-day COMPLETED transfers plus the candidate amount (0 + 1)
is well within the 10000 daily limit — the non-completed failed
transfer of 10000 is counted by the code. -/
theorem C3_counterexample_failed_transfer_counted :
    validate_transaction_limits [failedTransferC3] acctC3 candC3 0 = .error .limitExceeded ∧
    spec_completed_same_day_transfer_total [failedTransferC3] acctC3 0 + candC3.amount
      ≤ acctC3.daily_transfer_limit := by
  have hsb : (TransactionStatus.failed == TransactionStatus.completed) = false := by decide
  constructor
  · norm_num [validate_transaction_limits, failedTransferC3, acctC3, candC3, List.filter]
  · norm_num [spec_completed_same_day_transfer_total, failedTransferC3, acctC3, candC3,
      List.filter, hsb]

/-- C3 (amended): the withdrawal check is exactly `amount >
withdrawal_limit`; the transfer check is exactly `sum of ALL same-day
transfers on the account (whatever their status) + amount >
daily_transfer_limit`; other types always pass. -/
theorem C3_amended_limit_validation :
    ∀ (db : List Txn) (account : Account) (txn : Txn) (dayStart : Int),
      (txn.type = .withdrawal →
        (validate_transaction_limits db account txn dayStart = .error .limitExceeded
          ↔ txn.amount > account.withdrawal_limit)) ∧
      (txn.type = .transfer →
        (validate_transaction_limits db account txn dayStart = .error .limitExceeded
          ↔ ((db.filter (fun t =>
                t.account_id == account.id && t.type == TransactionType.transfer
                  && decide (t.created_at ≥ dayStart))).map (·.amount)).sum + txn.amount
              > account.daily_transfer_limit)) ∧
      (txn.type ≠ .withdrawal → txn.type ≠ .transfer →
        validate_transaction_limits db account txn dayStart = .ok ()) := by
  intro db account txn dayStart
  refine ⟨?_, ?_, ?_⟩
  · intro ht
    constructor
    · intro hval
      by_contra hgt
      simp [validate_transaction_limits, ht, hgt] at hval
    · intro hgt
      simp [validate_transaction_limits, ht, hgt]
  · intro ht
    constructor
    · intro hval
      by_contra hgt
      simp [validate_transaction_limits, ht, hgt] at hval
    · intro hgt
      simp [validate_transaction_limits, ht, hgt]
  · intro h1 h2
    simp [validate_transaction_limits, h1, h2]

theorem C3_amended_limit_validation_witness :
    candC3.type = .transfer ∧
      (validate_transaction_limits [failedTransferC3] acctC3 candC3 0 = .error .limitExceeded
        ↔ (([failedTransferC3].filter (fun t =>
              t.account_id == acctC3.id && t.type == TransactionType.transfer
                && decide (t.created_at ≥ 0))).map (·.amount)).sum + candC3.amount
            > acctC3.daily_transfer_limit) :=
  ⟨rfl, (C3_amended_limit_validation [failedTransferC3] acctC3 candC3 0).2.1 rfl⟩

/-- C4 counterexample: a payment is created successfully, yet no
account is debited and the transaction stays Pending with no processed
timestamp — the creation path has no settlement branch for payments. -/
theorem C4_counterexample_payment_not_settled :
    (create_transaction worldC4 reqC4 1 "r1" 7 0).toOption.map
        (fun p => (p.1.accounts, p.2.status, p.2.processed_at))
      = some (worldC4.accounts, TransactionStatus.pending, none) := by
  have h1 : TransactionType.payment ≠ TransactionType.withdrawal := by decide
  have h2 : TransactionType.payment ≠ TransactionType.deposit := by decide
  have h3 : TransactionType.payment ≠ TransactionType.transfer := by decide
  norm_num [create_transaction, validate_transaction_limits, worldC4, acctC4, reqC4,
    List.find?, List.filter, Except.toOption, h1, h2, h3]

/-- C4 (amended): on the creation path a withdrawal debits the source
account and a deposit credits it, each ending Completed with the
processed timestamp set; payment, interest, fee, investment and crypto
transactions are not settled — they are recorded Pending, with no
processed timestamp and no balance change. -/
theorem C4_amended_settlement_by_type :
    ∀ (w : World) (req : TransactionCreateReq) (uid : Nat) (ref : String)
      (now dayStart : Int) (w' : World) (t' : Txn),
      create_transaction w req uid ref now dayStart = .ok (w', t') →
      ((req.type = .payment ∨ req.type = .interest ∨ req.type = .fee ∨
          req.type = .investment ∨ req.type = .crypto) →
        w'.accounts = w.accounts ∧ t'.status = .pending ∧ t'.processed_at = none) ∧
      (req.type = .withdrawal →
        (∃ account, w.accounts.find? (fun a => a.id == req.account_id && a.user_id == uid)
            = some account ∧
          w'.accounts = adjust_balance w.accounts account.id (-req.amount)) ∧
        t'.status = .completed ∧ t'.processed_at = some now) ∧
      (req.type = .deposit →
        (∃ account, w.accounts.find? (fun a => a.id == req.account_id && a.user_id == uid)
            = some account ∧
          w'.accounts = adjust_balance w.accounts account.id req.amount) ∧
        t'.status = .completed ∧ t'.processed_at = some now) := by
  intro w req uid ref now dayStart w' t' hok
  unfold create_transaction at hok
  split at hok
  · exact absurd hok (by simp)
  · rename_i account hfind
    split at hok
    · exact absurd hok (by simp)
    · cases hval : validate_transaction_limits w.transactions account
          { reference_id := ref, user_id := uid, account_id := req.account_id,
            type := req.type, status := .pending, amount := req.amount,
            currency := account.currency, recipient_account := req.recipient_account,
            created_at := now, processed_at := none } dayStart with
      | error e => simp [hval] at hok
      | ok u =>
        refine ⟨?_, ?_, ?_⟩
        · intro htype
          rcases htype with h|h|h|h|h <;>
            (rw [h] at hval;
             simp [hval, h] at hok;
             obtain ⟨hw', ht'⟩ := hok;
             subst hw'; subst ht';
             exact ⟨rfl, rfl, rfl⟩)
        · intro h
          rw [h] at hval
          simp [hval, h, process_withdrawal] at hok
          by_cases hbal : account.balance < req.amount
          · rw [if_pos hbal] at hok
            simp at hok
          · rw [if_neg hbal] at hok
            simp at hok
            obtain ⟨hw', ht'⟩ := hok
            subst hw'
            subst ht'
            exact ⟨⟨account, hfind, rfl⟩, rfl, rfl⟩
        · intro h
          rw [h] at hval
          simp [hval, h, process_deposit] at hok
          obtain ⟨hw', ht'⟩ := hok
          subst hw'
          subst ht'
          exact ⟨⟨account, hfind, rfl⟩, rfl, rfl⟩

theorem C4_amended_settlement_by_type_witness :
    ∃ (w' : World) (t' : Txn),
      create_transaction worldC4 reqC4w 1 "r2" 7 0 = .ok (w', t') ∧
      ((∃ account, worldC4.accounts.find? (fun a => a.id == reqC4w.account_id && a.user_id == 1)
          = some account ∧
        w'.accounts = adjust_balance worldC4.accounts account.id (-reqC4w.amount)) ∧
      t'.status = .completed ∧ t'.processed_at = some 7) := by
  have hok : create_transaction worldC4 reqC4w 1 "r2" 7 0
      = .ok ({ accounts := adjust_balance worldC4.accounts 1 (-reqC4w.amount),
               transactions := [txnC4w] }, txnC4w) := by
    norm_num [create_transaction, validate_transaction_limits, process_withdrawal,
      adjust_balance, worldC4, acctC4, reqC4w, txnC4w, List.find?, List.filter]
  exact ⟨_, _, hok,
    (C4_amended_settlement_by_type worldC4 reqC4w 1 "r2" 7 0 _ _ hok).2.1 rfl⟩

/-- C1 counterexample: the spec's worked example (empty history, $500
withdrawal, unknown device) yields risk score 0.40, not the claimed
0.35 — the pattern factor contributes 0.2 × 0.25 even on an empty
history. -/
theorem C1_counterexample_empty_history_score :
    analyze_transaction [] [] 0 1 500 .withdrawal ⟨none, none⟩ (fun _ => 0) = 2/5 ∧
    (2/5 : Rat) ≠ 7/20 := by
  constructor
  · norm_num [analyze_transaction, analyze_amount, analyze_frequency, analyze_device,
      analyze_patterns, maxOfList, multipleOf100]
  · norm_num

/-- C1 (amended): for an owner with empty 30-day history submitting a
$500 withdrawal from an unknown device the score is 0.40: amount 0.5 ×
0.3, device 0.8 × 0.25, frequency 0, and pattern 0.2 × 0.25 — the +0.2
low-type-frequency bonus applies on an empty history too, since the
code then divides by the fallback total of 1. -/
theorem C1_amended_empty_history_score :
    ∀ (db : List Txn) (devices : List AuthDevice) (now : Int) (uid : Nat)
      (di : DeviceInfo) (sqrtFn : Rat → Rat),
      db.filter (fun t => t.user_id == uid && decide (t.created_at ≥ now - 30 * 86400)) = [] →
      devices.find? (fun d => d.user_id == uid && some d.device_id == di.device_id) = none →
      analyze_transaction db devices now uid 500 .withdrawal di sqrtFn = 2/5 := by
  intro db devices now uid di sqrtFn h30 hdev
  have hsub : ∀ (secs : Int), secs ≤ 30 * 86400 →
      db.filter (fun t => t.user_id == uid && decide (t.created_at ≥ now - secs)) = [] := by
    intro secs hle
    rw [List.filter_eq_nil_iff] at h30 ⊢
    intro a ha hcontra
    apply h30 a ha
    simp only [Bool.and_eq_true, beq_iff_eq, decide_eq_true_eq] at hcontra ⊢
    exact ⟨hcontra.1, le_trans (by omega) hcontra.2⟩
  have h1h := hsub 3600 (by norm_num)
  have h7d := hsub (7 * 86400) (by norm_num)
  unfold analyze_transaction analyze_frequency analyze_device
  rw [h30, h1h, h7d, hdev]
  norm_num [analyze_amount, analyze_patterns, maxOfList, multipleOf100, min_def]

theorem C1_amended_empty_history_score_witness :
    (([] : List Txn).filter
        (fun t => t.user_id == 1 && decide (t.created_at ≥ 0 - 30 * 86400)) = [] ∧
      ([] : List AuthDevice).find?
        (fun d => d.user_id == 1 && some d.device_id == (⟨none, none⟩ : DeviceInfo).device_id)
        = none) ∧
    analyze_transaction [] [] 0 1 500 .withdrawal ⟨none, none⟩ (fun _ => 0) = 2/5 :=
  ⟨⟨rfl, rfl⟩, C1_amended_empty_history_score [] [] 0 1 ⟨none, none⟩ (fun _ => 0) rfl rfl⟩

end Banking
